import Mathlib

/-!
# NextGen-Data-Architects, prototype1 frontend

A shallow embedding of the React components of `prototype1/frontend/src`:

* `context/AuthContext.js`      (session restore, `login`, `logout`)
* `components/Dashboard.js`     (`fetchDashboardData` and the render gate)
* `components/StatsCards.js`    (the `!stats` guard)
* `components/Charts.js`        (the six chart-data transforms)
* `components/PredictionPanel.js` (`handlePredict` and the input/button wiring)

Component state (`useState`) becomes a record, every handler becomes a function
from the record before the handler to the record after it, and the outcome of an
awaited HTTP request is an explicit argument of the continuation that consumes it.
A handler that lets an exception escape returns `none` / `Except.error`.
-/

namespace NextGen

/-! ## JavaScript values -/

/-- A JavaScript string: its sequence of UTF-16 code units.  `length`, `substring`
and `trim` of the source count code units, so the embedding does too. -/
abbrev JsString := List Nat

/-- The code units of a literal of the source (all of them are ASCII). -/
def js (s : String) : JsString := s.toList.map Char.toNat

/-- The values a JSON payload or a piece of component state can hold.  Numbers are
the integers (what `toStr` prints is right below `10^21`); no theorem reads one. -/
inductive JsVal where
  | undefined
  | null
  | bool (b : Bool)
  | num (n : Int)
  | str (s : JsString)
  | arr (items : List JsVal)
  | obj (fields : List (JsString × JsVal))

namespace JsVal

/-- The test `v == null` (true of `null` and of `undefined`). -/
def isNullish : JsVal → Bool
  | undefined => true
  | null => true
  | _ => false

/-- The test `v != null`. -/
def nonNull (v : JsVal) : Bool := !v.isNullish

/-- ToBoolean, as applied by `!v`, `v && w` and `v || w`. -/
def truthy : JsVal → Bool
  | undefined => false
  | null => false
  | bool b => b
  | num n => n != 0
  | str s => !s.isEmpty
  | arr _ => true
  | obj _ => true

/-- First binding of a key in a property list. -/
def lookup (key : JsString) : List (JsString × JsVal) → JsVal
  | [] => undefined
  | (k, v) :: rest => if k = key then v else lookup key rest

/-- The property read `v.key` on a value that is not null or undefined, for the
keys the source reads (`access_token`, `username`, `role`, `error`): an own
property of an object, `undefined` on everything else. -/
def get (key : JsString) : JsVal → JsVal
  | obj fields => lookup key fields
  | _ => undefined

/-- Decimal digits of a natural number, most significant first. -/
def natDigits : Nat → Nat → JsString
  | 0, _ => []
  | fuel + 1, n => if n < 10 then [48 + n] else natDigits fuel (n / 10) ++ [48 + n % 10]

mutual
/-- ToString, as applied by a template literal and by `localStorage.setItem`. -/
def toStr : JsVal → JsString
  | undefined => js "undefined"
  | null => js "null"
  | bool true => js "true"
  | bool false => js "false"
  | num n =>
    if n < 0 then 45 :: natDigits (n.natAbs + 1) n.natAbs else natDigits (n.natAbs + 1) n.natAbs
  | str s => s
  | arr items => joinItems items
  | obj _ => js "[object Object]"
/-- The comma join `Array.prototype.toString` falls back on. -/
def joinItems : List JsVal → JsString
  | [] => []
  | x :: rest =>
    (match x with
      | undefined => []
      | null => []
      | bool b => toStr (bool b)
      | num n => toStr (num n)
      | str s => toStr (str s)
      | arr items => toStr (arr items)
      | obj fields => toStr (obj fields)) ++
    (match rest with
      | [] => []
      | _ :: _ => 44 :: joinItems rest)
end

end JsVal

/-! ## The browser environment of `AuthContext.js` -/

/-- The platform functions `JSON.parse` and `JSON.stringify`.  `parse` answers
`none` where `JSON.parse` throws a `SyntaxError`. -/
structure JsonCodec where
  parse : JsString → Option JsVal
  stringify : JsVal → JsString

/-- The contents of `localStorage`: `getItem` of a key is a string or `null`. -/
abbrev Storage := JsString → Option JsString

namespace Storage

/-- A storage without any key. -/
def empty : Storage := fun _ => none

def getItem (st : Storage) (key : JsString) : Option JsString := st key

def setItem (st : Storage) (key value : JsString) : Storage :=
  fun k => if k = key then some value else st k

def removeItem (st : Storage) (key : JsString) : Storage :=
  fun k => if k = key then none else st k

end Storage

/-- One call of the HTTP client. -/
structure Request where
  method : JsString
  url : JsString
  body : JsVal

/-- The three `useState` cells of `AuthProvider`. -/
structure Session where
  isAuthenticated : Bool
  user : JsVal
  token : JsVal

/-- Everything `AuthProvider` reads or writes: its own state, `localStorage`,
`axios.defaults.headers.common['Authorization']` and the requests sent so far. -/
structure Browser where
  session : Session
  localStorage : Storage
  authorization : Option JsString
  requests : List Request

/-- The state `useState(false)`, `useState(null)`, `useState(null)`. -/
def Session.initial : Session := { isAuthenticated := false, user := .null, token := .null }

/-- A freshly loaded page over the given storage contents. -/
def Browser.fresh (st : Storage) : Browser :=
  { session := Session.initial, localStorage := st, authorization := none, requests := [] }

/-- The mount effect of `AuthProvider` (lines 19-28).  A `SyntaxError` of
`JSON.parse` is not caught by the effect, which tears the provider down: no
session is left, `none`. -/
def restore (json : JsonCodec) (w : Browser) : Option Browser :=
  match w.localStorage.getItem (js "token"), w.localStorage.getItem (js "user") with
  | some storedToken, some storedUser =>
    if !storedToken.isEmpty && !storedUser.isEmpty then
      match json.parse storedUser with
      | none => none
      | some parsed =>
        some { w with
          session := { isAuthenticated := true, user := parsed, token := .str storedToken }
          authorization := some (js "Bearer " ++ storedToken) }
    else some w
  | _, _ => some w

/-- How `axios.post('/api/login', ...)` settles: resolved with `response.data`, or
rejected with an error whose `response` is missing (`none`, a network error) or
carries `response.data`. -/
inductive Settled where
  | resolved (data : JsVal)
  | rejected (responseData : Option JsVal)

/-- The value `login` returns. -/
inductive LoginResult where
  | success
  | failure (error : JsVal)

/-- The expression `error.response?.data?.error`. -/
def errorField : Option JsVal → JsVal
  | none => .undefined
  | some data => if data.isNullish then .undefined else data.get (js "error")

/-- The expression `a || b`. -/
def JsVal.orElse (a b : JsVal) : JsVal := if a.truthy then a else b

/-- The object literal `{ username: user, role }`. -/
def userObject (username role : JsVal) : JsVal :=
  .obj [(js "username", username), (js "role", role)]

/-- The request `login` sends. -/
def loginRequest (username password : JsString) : Request :=
  { method := js "POST", url := js "/api/login",
    body := .obj [(js "username", .str username), (js "password", .str password)] }

/-- The function `login` (lines 30-48), run from the moment the request settles.
Destructuring a `null` or `undefined` body throws a `TypeError`, which the `catch`
turns into the fallback message since a `TypeError` has no `response`. -/
def login (json : JsonCodec) (username password : JsString) (outcome : Settled)
    (w : Browser) : LoginResult × Browser :=
  let sent := { w with requests := w.requests ++ [loginRequest username password] }
  match outcome with
  | .resolved data =>
    if data.isNullish then
      (.failure ((errorField none).orElse (.str (js "Login failed"))), sent)
    else
      let access_token := data.get (js "access_token")
      let user := data.get (js "username")
      let role := data.get (js "role")
      (.success,
        { sent with
          session := { isAuthenticated := true, user := userObject user role, token := access_token }
          localStorage :=
            (sent.localStorage.setItem (js "token") access_token.toStr).setItem (js "user")
              (json.stringify (userObject user role))
          authorization := some (js "Bearer " ++ access_token.toStr) })
  | .rejected responseData =>
    (.failure ((errorField responseData).orElse (.str (js "Login failed"))), sent)

/-- The function `logout` (lines 50-57). -/
def logout (w : Browser) : Browser :=
  { w with
    session := { isAuthenticated := false, user := .null, token := .null }
    localStorage := (w.localStorage.removeItem (js "token")).removeItem (js "user")
    authorization := none }

/-- What can happen to the provider: a run of the mount effect over some storage
contents, a `login` call together with the way its request settles, a `logout`. -/
inductive AuthEvent where
  | restore (stored : Storage)
  | login (username password : JsString) (outcome : Settled)
  | logout

/-- One event.  The mount effect runs over the storage contents it is given. -/
def authStep (json : JsonCodec) (w : Browser) : AuthEvent → Option Browser
  | .restore stored => restore json { w with localStorage := stored }
  | .login username password outcome => some (login json username password outcome w).2
  | .logout => some (logout w)

/-- A sequence of events, stopping at the first one that tears the provider down. -/
def authRun (json : JsonCodec) (w : Browser) : List AuthEvent → Option Browser
  | [] => some w
  | e :: rest =>
    match authStep json w e with
    | none => none
    | some w1 => authRun json w1 rest

/-- The invariant of the data model: `isAuthenticated == (token != null && user != null)`. -/
def Session.consistent (s : Session) : Bool :=
  s.isAuthenticated == (s.token.nonNull && s.user.nonNull)

/-! ## A reference `JSON` codec

The theorems about `AuthContext.js` hold for every codec.  Concrete runs use this
one, which reads and writes JSON texts whose numbers are integer literals. -/

namespace RefJson

def isWs (c : Nat) : Bool := c == 32 || c == 9 || c == 10 || c == 13

def skipWs : JsString → JsString := List.dropWhile isWs

def isDigit (c : Nat) : Bool := 48 ≤ c && c ≤ 57

def hexVal (c : Nat) : Option Nat :=
  if 48 ≤ c && c ≤ 57 then some (c - 48)
  else if 97 ≤ c && c ≤ 102 then some (c - 87)
  else if 65 ≤ c && c ≤ 70 then some (c - 55)
  else none

def hexDigit (n : Nat) : Nat := if n < 10 then 48 + n else 87 + n

/-- The characters of a string literal after its opening quote, and what follows
the closing quote. -/
def parseChars : JsString → Option (JsString × JsString)
  | [] => none
  | c :: rest =>
    if c = 34 then some ([], rest)
    else if c = 92 then
      match rest with
      | [] => none
      | e :: rest1 =>
        if e = 117 then
          match rest1 with
          | a :: b :: c1 :: d :: rest2 =>
            match hexVal a, hexVal b, hexVal c1, hexVal d, parseChars rest2 with
            | some x, some y, some z, some w, some (s, out) =>
              some ((((x * 16 + y) * 16 + z) * 16 + w) :: s, out)
            | _, _, _, _, _ => none
          | _ => none
        else
          let plain : Option Nat :=
            if e = 34 then some 34 else if e = 92 then some 92 else if e = 47 then some 47
            else if e = 98 then some 8 else if e = 102 then some 12 else if e = 110 then some 10
            else if e = 114 then some 13 else if e = 116 then some 9 else none
          match plain, parseChars rest1 with
          | some u, some (s, out) => some (u :: s, out)
          | _, _ => none
    else if c < 32 then none
    else
      match parseChars rest with
      | some (s, out) => some (c :: s, out)
      | none => none

/-- The value of a run of digits read after the accumulator `acc`. -/
def parseDigits (acc : Nat) : JsString → Nat × JsString
  | [] => (acc, [])
  | c :: rest => if isDigit c then parseDigits (acc * 10 + (c - 48)) rest else (acc, c :: rest)

/-- An integer literal: no leading zero, no fraction, no exponent. -/
def parseInt (input : JsString) : Option (Int × JsString) :=
  let (neg, body) : Bool × JsString :=
    match input with
    | 45 :: rest => (true, rest)
    | _ => (false, input)
  match body with
  | [] => none
  | c :: rest =>
    if !isDigit c then none
    else if c = 48 && (rest.head?.map isDigit).getD false then none
    else
      let (n, out) := parseDigits 0 (c :: rest)
      match out with
      | 46 :: _ => none
      | 101 :: _ => none
      | 69 :: _ => none
      | _ => some (if neg then -(n : Int) else (n : Int), out)

/-- Set a key of a property list: a repeated key keeps its place and takes the
later value. -/
def setField (key : JsString) (v : JsVal) : List (JsString × JsVal) → List (JsString × JsVal)
  | [] => [(key, v)]
  | (k, old) :: rest => if k = key then (k, v) :: rest else (k, old) :: setField key v rest

mutual
/-- One JSON value and the rest of the input. -/
def parseValue : Nat → JsString → Option (JsVal × JsString)
  | 0, _ => none
  | fuel + 1, input =>
    match skipWs input with
    | 110 :: 117 :: 108 :: 108 :: rest => some (.null, rest)
    | 116 :: 114 :: 117 :: 101 :: rest => some (.bool true, rest)
    | 102 :: 97 :: 108 :: 115 :: 101 :: rest => some (.bool false, rest)
    | 34 :: rest =>
      match parseChars rest with
      | some (s, out) => some (.str s, out)
      | none => none
    | 91 :: rest =>
      match skipWs rest with
      | 93 :: out => some (.arr [], out)
      | _ =>
        match parseElements fuel rest with
        | some (items, out) => some (.arr items, out)
        | none => none
    | 123 :: rest =>
      match skipWs rest with
      | 125 :: out => some (.obj [], out)
      | _ =>
        match parseMembers fuel [] rest with
        | some (fields, out) => some (.obj fields, out)
        | none => none
    | other =>
      match parseInt other with
      | some (n, out) => some (.num n, out)
      | none => none
/-- The elements of a non-empty array, up to and including its `]`. -/
def parseElements : Nat → JsString → Option (List JsVal × JsString)
  | 0, _ => none
  | fuel + 1, input =>
    match parseValue fuel input with
    | none => none
    | some (v, out) =>
      match skipWs out with
      | 93 :: out1 => some ([v], out1)
      | 44 :: out1 =>
        match parseElements fuel out1 with
        | some (vs, out2) => some (v :: vs, out2)
        | none => none
      | _ => none
/-- The members of a non-empty object, up to and including its closing brace. -/
def parseMembers : Nat → List (JsString × JsVal) → JsString →
    Option (List (JsString × JsVal) × JsString)
  | 0, _, _ => none
  | fuel + 1, acc, input =>
    match skipWs input with
    | 34 :: rest =>
      match parseChars rest with
      | none => none
      | some (key, out) =>
        match skipWs out with
        | 58 :: out1 =>
          match parseValue fuel out1 with
          | none => none
          | some (v, out2) =>
            match skipWs out2 with
            | 125 :: out3 => some (setField key v acc, out3)
            | 44 :: out3 => parseMembers fuel (setField key v acc) out3
            | _ => none
        | _ => none
    | _ => none
end

/-- The function `JSON.parse`: one value, then nothing but white space. -/
def parse (input : JsString) : Option JsVal :=
  match parseValue (input.length + 1) input with
  | some (v, out) => if (skipWs out).isEmpty then some v else none
  | none => none

/-- The escape of one code unit inside a string literal. -/
def escape (c : Nat) : JsString :=
  if c = 34 then [92, 34] else if c = 92 then [92, 92]
  else if c = 8 then [92, 98] else if c = 12 then [92, 102] else if c = 10 then [92, 110]
  else if c = 13 then [92, 114] else if c = 9 then [92, 116]
  else if c < 32 then [92, 117, 48, 48, hexDigit (c / 16), hexDigit (c % 16)]
  else [c]

/-- A quoted string literal. -/
def quote (s : JsString) : JsString := 34 :: (s.flatMap escape ++ [34])

mutual
/-- The function `JSON.stringify` on a value that has a JSON text. -/
def stringify : JsVal → JsString
  | .undefined => js "undefined"
  | .null => js "null"
  | .bool true => js "true"
  | .bool false => js "false"
  | .num n => (JsVal.num n).toStr
  | .str s => quote s
  | .arr items => 91 :: (stringifyItems items ++ [93])
  | .obj fields => 123 :: (stringifyFields true fields ++ [125])
/-- Array elements, comma separated; `undefined` is written `null`. -/
def stringifyItems : List JsVal → JsString
  | [] => []
  | x :: rest =>
    (match x with
      | .undefined => js "null"
      | .null => stringify .null
      | .bool b => stringify (.bool b)
      | .num n => stringify (.num n)
      | .str s => stringify (.str s)
      | .arr items => stringify (.arr items)
      | .obj fields => stringify (.obj fields)) ++
    (match rest with
      | [] => []
      | _ :: _ => 44 :: stringifyItems rest)
/-- Object members, comma separated; a member whose value is `undefined` is left
out.  The flag tells whether no member has been written yet. -/
def stringifyFields : Bool → List (JsString × JsVal) → JsString
  | _, [] => []
  | first, (k, x) :: rest =>
    match x with
    | .undefined => stringifyFields first rest
    | .null => sep first ++ quote k ++ 58 :: stringify .null ++ stringifyFields false rest
    | .bool b => sep first ++ quote k ++ 58 :: stringify (.bool b) ++ stringifyFields false rest
    | .num n => sep first ++ quote k ++ 58 :: stringify (.num n) ++ stringifyFields false rest
    | .str s => sep first ++ quote k ++ 58 :: stringify (.str s) ++ stringifyFields false rest
    | .arr items =>
      sep first ++ quote k ++ 58 :: stringify (.arr items) ++ stringifyFields false rest
    | .obj fields =>
      sep first ++ quote k ++ 58 :: stringify (.obj fields) ++ stringifyFields false rest
where
  sep (first : Bool) : JsString := if first then [] else [44]
end

end RefJson

/-- The reference codec. -/
def refJson : JsonCodec := { parse := RefJson.parse, stringify := RefJson.stringify }

/-- The events under which the invariant is kept: a run of the mount effect whose
guard passes finds a `user` entry that does not parse to `null`, and a resolved
login carries an `access_token` that is not `null` or `undefined`. -/
def AuthEvent.keepsInvariant (json : JsonCodec) : AuthEvent → Bool
  | .restore stored =>
    match stored.getItem (js "token"), stored.getItem (js "user") with
    | some storedToken, some storedUser =>
      if !storedToken.isEmpty && !storedUser.isEmpty then
        match json.parse storedUser with
        | none => true
        | some parsed => parsed.nonNull
      else true
    | _, _ => true
  | .login _ _ (.resolved data) => data.isNullish || (data.get (js "access_token")).nonNull
  | .login _ _ (.rejected _) => true
  | .logout => true

/-- Whether `login` answered `{ success: true }`. -/
def LoginResult.isSuccess : LoginResult → Bool
  | .success => true
  | .failure _ => false

/-- A login response body `{ access_token, username, role }` of three strings. -/
def loginResponse (access_token username role : JsString) : JsVal :=
  .obj [(js "access_token", .str access_token), (js "username", .str username),
    (js "role", .str role)]

/-- Storage contents holding a token and the text `null` as the user. -/
def nullUserStorage : Storage :=
  (Storage.empty.setItem (js "token") (js "abc")).setItem (js "user") (js "null")

/-- Storage contents as a successful login of `ann` leaves them. -/
def annStorage : Storage :=
  (Storage.empty.setItem (js "token") (js "abc")).setItem (js "user")
    (js "\x7b\"username\":\"ann\",\"role\":\"staff\"\x7d")

/-- A session history: reload with a stored session, rejected login, logout,
accepted login. -/
def sampleHistory : List AuthEvent :=
  [.restore annStorage,
   .login (js "ann") (js "bad") (.rejected (some (.obj [(js "error", .str (js "Invalid credentials"))]))),
   .logout,
   .login (js "ann") (js "pw") (.resolved (loginResponse (js "abc") (js "ann") (js "staff")))]

/-! ## `Charts.js` -/

/-- The exception a handler or a render can raise. -/
inductive JsError where
  | typeError
  deriving DecidableEq, Repr

/-- The call `xs.map((x, idx) => f x idx)` with a callback that may throw: the
callback runs on the elements in order and the first exception ends the call. -/
def arrayMap {α β : Type} (f : α → Nat → Except JsError β) : List α → Except JsError (List β)
  | [] => .ok []
  | x :: xs =>
    match f x 0 with
    | .error e => .error e
    | .ok y =>
      match arrayMap (fun a idx => f a (idx + 1)) xs with
      | .error e => .error e
      | .ok ys => .ok (y :: ys)

/-- The read `values[idx]` where `values` is a property that may be absent: a
`TypeError` on an absent array, `undefined` (`none`) past the end of a present one. -/
def indexRead {ν : Type} (values : Option (List ν)) (idx : Nat) : Except JsError (Option ν) :=
  match values with
  | none => .error .typeError
  | some vs => .ok vs[idx]?

/-- The expression `s.length > n ? s.substring(0, n) + '...' : s`. -/
def ellipsize (n : Nat) (s : JsString) : JsString :=
  if s.length > n then s.take n ++ js "..." else s

/-- Payload of `/api/dashboard/students-by-department`. -/
structure DepartmentsPayload (ν : Type) where
  departments : Option (List JsString)
  counts : Option (List ν)

/-- Payload of `/api/dashboard/grades-over-time`. -/
structure GradesOverTimePayload (ν : Type) where
  periods : Option (List JsString)
  grades : Option (List ν)

/-- Payload of `/api/dashboard/payment-status`. -/
structure PaymentStatusPayload (ν : Type) where
  statuses : Option (List JsString)
  counts : Option (List ν)

/-- Payload of `/api/dashboard/attendance-by-course`. -/
structure AttendancePayload (ν : Type) where
  courses : Option (List JsString)
  avg_hours : Option (List ν)

/-- Payload of `/api/dashboard/grade-distribution`. -/
structure GradeDistributionPayload (ν : Type) where
  grades : Option (List JsString)
  counts : Option (List ν)

/-- Payload of `/api/dashboard/top-students`. -/
structure TopStudentsPayload (ν : Type) where
  students : Option (List JsString)
  grades : Option (List ν)

/-- The prop `chartData`; `none` is a dataset that is absent. -/
structure ChartData (ν : Type) where
  departments : Option (DepartmentsPayload ν)
  gradesOverTime : Option (GradesOverTimePayload ν)
  paymentStatus : Option (PaymentStatusPayload ν)
  attendance : Option (AttendancePayload ν)
  gradeDistribution : Option (GradeDistributionPayload ν)
  topStudents : Option (TopStudentsPayload ν)

/-- The object `{}` the dashboard starts from. -/
def ChartData.empty {ν : Type} : ChartData ν :=
  { departments := none, gradesOverTime := none, paymentStatus := none, attendance := none,
    gradeDistribution := none, topStudents := none }

/-- An entry `{ name, students }`. -/
structure DeptEntry (ν : Type) where
  name : JsString
  students : Option ν

/-- An entry `{ period, grade }`. -/
structure GradeEntry (ν : Type) where
  period : JsString
  grade : Option ν

/-- An entry `{ name, value }` of one of the two pie charts. -/
structure PieEntry (ν : Type) where
  name : JsString
  value : Option ν

/-- An entry `{ name, hours }`. -/
structure AttendanceEntry (ν : Type) where
  name : JsString
  hours : Option ν

/-- An entry `{ name, grade }`. -/
structure StudentEntry (ν : Type) where
  name : JsString
  grade : Option ν

/-- The transform `deptData` (lines 14-17). -/
def deptData {ν : Type} (departments : Option (DepartmentsPayload ν)) :
    Except JsError (List (DeptEntry ν)) :=
  match departments with
  | none => .ok []
  | some d =>
    match d.departments with
    | none => .ok []
    | some labels =>
      arrayMap (fun dept idx =>
        match indexRead d.counts idx with
        | .error e => .error e
        | .ok v => .ok { name := dept, students := v }) labels

/-- The transform `gradesData` (lines 19-22). -/
def gradesData {ν : Type} (gradesOverTime : Option (GradesOverTimePayload ν)) :
    Except JsError (List (GradeEntry ν)) :=
  match gradesOverTime with
  | none => .ok []
  | some d =>
    match d.periods with
    | none => .ok []
    | some labels =>
      arrayMap (fun period idx =>
        match indexRead d.grades idx with
        | .error e => .error e
        | .ok v => .ok { period := period, grade := v }) labels

/-- The transform `paymentData` (lines 24-27). -/
def paymentData {ν : Type} (paymentStatus : Option (PaymentStatusPayload ν)) :
    Except JsError (List (PieEntry ν)) :=
  match paymentStatus with
  | none => .ok []
  | some d =>
    match d.statuses with
    | none => .ok []
    | some labels =>
      arrayMap (fun status idx =>
        match indexRead d.counts idx with
        | .error e => .error e
        | .ok v => .ok { name := status, value := v }) labels

/-- The transform `attendanceData` (lines 29-32). -/
def attendanceData {ν : Type} (attendance : Option (AttendancePayload ν)) :
    Except JsError (List (AttendanceEntry ν)) :=
  match attendance with
  | none => .ok []
  | some d =>
    match d.courses with
    | none => .ok []
    | some labels =>
      arrayMap (fun course idx =>
        match indexRead d.avg_hours idx with
        | .error e => .error e
        | .ok v => .ok { name := ellipsize 20 course, hours := v }) (labels.take 8)

/-- The transform `gradeDistData` (lines 34-37). -/
def gradeDistData {ν : Type} (gradeDistribution : Option (GradeDistributionPayload ν)) :
    Except JsError (List (PieEntry ν)) :=
  match gradeDistribution with
  | none => .ok []
  | some d =>
    match d.grades with
    | none => .ok []
    | some labels =>
      arrayMap (fun grade idx =>
        match indexRead d.counts idx with
        | .error e => .error e
        | .ok v => .ok { name := grade, value := v }) labels

/-- The transform `topStudentsData` (lines 39-42). -/
def topStudentsData {ν : Type} (topStudents : Option (TopStudentsPayload ν)) :
    Except JsError (List (StudentEntry ν)) :=
  match topStudents with
  | none => .ok []
  | some d =>
    match d.students with
    | none => .ok []
    | some labels =>
      arrayMap (fun student idx =>
        match indexRead d.grades idx with
        | .error e => .error e
        | .ok v => .ok { name := ellipsize 15 student, grade := v }) labels

/-- The six arrays handed to the chart widgets. -/
structure ChartViews (ν : Type) where
  deptData : List (DeptEntry ν)
  gradesData : List (GradeEntry ν)
  paymentData : List (PieEntry ν)
  attendanceData : List (AttendanceEntry ν)
  gradeDistData : List (PieEntry ν)
  topStudentsData : List (StudentEntry ν)

/-- The body of `Charts` up to its `return`: the six transforms in source order.
An exception of any of them escapes the component. -/
def Charts {ν : Type} (chartData : ChartData ν) : Except JsError (ChartViews ν) :=
  match deptData chartData.departments with
  | .error e => .error e
  | .ok a =>
  match gradesData chartData.gradesOverTime with
  | .error e => .error e
  | .ok b =>
  match paymentData chartData.paymentStatus with
  | .error e => .error e
  | .ok c =>
  match attendanceData chartData.attendance with
  | .error e => .error e
  | .ok d =>
  match gradeDistData chartData.gradeDistribution with
  | .error e => .error e
  | .ok g =>
  match topStudentsData chartData.topStudents with
  | .error e => .error e
  | .ok t =>
    .ok { deptData := a, gradesData := b, paymentData := c, attendanceData := d,
          gradeDistData := g, topStudentsData := t }

/-! ## `Dashboard.js` and `StatsCards.js` -/

/-- How one `axios.get` of the dashboard settles. -/
inductive Fetched (α : Type) where
  | rejected
  | resolved (data : α)

/-- Whether the request resolved. -/
def Fetched.isResolved {α : Type} : Fetched α → Bool
  | .rejected => false
  | .resolved _ => true

/-- The outcomes of the seven requests of `fetchDashboardData`, in source order. -/
structure DashboardResponses (ν : Type) where
  statsRes : Fetched JsVal
  deptRes : Fetched (Option (DepartmentsPayload ν))
  gradesRes : Fetched (Option (GradesOverTimePayload ν))
  paymentRes : Fetched (Option (PaymentStatusPayload ν))
  attendanceRes : Fetched (Option (AttendancePayload ν))
  gradeDistRes : Fetched (Option (GradeDistributionPayload ν))
  topStudentsRes : Fetched (Option (TopStudentsPayload ν))

/-- Whether at least one of the seven requests was rejected. -/
def DashboardResponses.anyRejected {ν : Type} (r : DashboardResponses ν) : Bool :=
  !(r.statsRes.isResolved && r.deptRes.isResolved && r.gradesRes.isResolved &&
    r.paymentRes.isResolved && r.attendanceRes.isResolved && r.gradeDistRes.isResolved &&
    r.topStudentsRes.isResolved)

/-- The three `useState` cells of `Dashboard`. -/
structure DashboardState (ν : Type) where
  stats : JsVal
  loading : Bool
  chartData : ChartData ν

/-- The state `useState(null)`, `useState(true)`, `useState({})`. -/
def DashboardState.initial {ν : Type} : DashboardState ν :=
  { stats := .null, loading := true, chartData := ChartData.empty }

/-- The function `fetchDashboardData` (lines 21-48), run from the moment
`Promise.all` settles: it resolves when all seven requests resolved and rejects as
soon as one is rejected, which lands in the `catch`. -/
def fetchDashboardData {ν : Type} (r : DashboardResponses ν) (s : DashboardState ν) :
    DashboardState ν :=
  match r.statsRes, r.deptRes, r.gradesRes, r.paymentRes, r.attendanceRes, r.gradeDistRes,
    r.topStudentsRes with
  | .resolved statsData, .resolved deptData, .resolved gradesData, .resolved paymentData,
    .resolved attendanceData, .resolved gradeDistData, .resolved topStudentsData =>
    { stats := statsData
      chartData :=
        { departments := deptData, gradesOverTime := gradesData, paymentStatus := paymentData,
          attendance := attendanceData, gradeDistribution := gradeDistData,
          topStudents := topStudentsData }
      loading := false }
  | _, _, _, _, _, _, _ => { s with loading := false }

/-- The guard of `StatsCards` (line 5): `none` is the `null` render; otherwise the
six cards are built from `stats`, which stands for them here. -/
def StatsCards (stats : JsVal) : Option JsVal :=
  if !stats.truthy then none else some stats

/-- What `Dashboard` renders. -/
inductive DashboardView (ν : Type) where
  | loadingScreen
  | page (statsCards : Option JsVal) (charts : Except JsError (ChartViews ν))

/-- The render of `Dashboard` (lines 74-105). -/
def Dashboard.render {ν : Type} (s : DashboardState ν) : DashboardView ν :=
  if s.loading then .loadingScreen else .page (StatsCards s.stats) (Charts s.chartData)

/-- The render with no stat card and six empty charts. -/
def DashboardView.blankPage {ν : Type} : DashboardView ν :=
  .page none (.ok { deptData := [], gradesData := [], paymentData := [], attendanceData := [],
                    gradeDistData := [], topStudentsData := [] })

/-! ## `PredictionPanel.js` -/

/-- The code units `String.prototype.trim` strips: WhiteSpace and LineTerminator. -/
def isWhiteSpace (c : Nat) : Bool :=
  c == 9 || c == 10 || c == 11 || c == 12 || c == 13 || c == 32 || c == 160 || c == 5760 ||
  (8192 ≤ c && c ≤ 8202) || c == 8232 || c == 8233 || c == 8239 || c == 8287 || c == 12288 ||
  c == 65279

/-- The method `String.prototype.trim`. -/
def trim (s : JsString) : JsString :=
  ((s.dropWhile isWhiteSpace).reverse.dropWhile isWhiteSpace).reverse

/-- The four `useState` cells of `PredictionPanel`, the requests it has sent and
the number of them that have not settled yet. -/
structure PanelState where
  studentId : JsString
  prediction : JsVal
  loading : Bool
  error : JsVal
  requests : List Request
  inFlight : Nat

/-- The state `useState('')`, `useState(null)`, `useState(false)`, `useState('')`. -/
def PanelState.initial : PanelState :=
  { studentId := [], prediction := .null, loading := false, error := .str [], requests := [],
    inFlight := 0 }

/-- The request `handlePredict` sends. -/
def predictRequest (studentId : JsString) : Request :=
  { method := js "POST", url := js "/api/dashboard/predict-performance",
    body := .obj [(js "student_id", .str studentId)] }

/-- The function `handlePredict` (lines 11-31) up to its `await`. -/
def handlePredict (s : PanelState) : PanelState :=
  if (trim s.studentId).isEmpty then
    { s with error := .str (js "Please enter a student ID") }
  else
    { s with
      loading := true
      error := .str []
      prediction := .null
      requests := s.requests ++ [predictRequest s.studentId]
      inFlight := s.inFlight + 1 }

/-- The rest of `handlePredict`, run when its request settles. -/
def predictSettled (outcome : Settled) (s : PanelState) : PanelState :=
  match outcome with
  | .resolved data => { s with prediction := data, loading := false, inFlight := s.inFlight - 1 }
  | .rejected responseData =>
    { s with
      error := (errorField responseData).orElse (.str (js "Failed to predict performance"))
      loading := false
      inFlight := s.inFlight - 1 }

/-- What can happen to the panel. -/
inductive PanelEvent where
  | change (value : JsString)
  | click
  | keyPress (key : JsString)
  | settle (outcome : Settled)

/-- One event: `onChange` of the input, `onClick` of the button (which is
`disabled={loading}` and so delivers no click while loading), `onKeyPress` of the
input, and the settling of a request in flight. -/
def panelStep (s : PanelState) : PanelEvent → PanelState
  | .change value => { s with studentId := value }
  | .click => if s.loading then s else handlePredict s
  | .keyPress key => if key = js "Enter" then handlePredict s else s
  | .settle outcome => if s.inFlight = 0 then s else predictSettled outcome s

/-- A sequence of events. -/
def panelRun (s : PanelState) (events : List PanelEvent) : PanelState :=
  events.foldl panelStep s

/-- Whether the event is a key press. -/
def PanelEvent.isKeyPress : PanelEvent → Bool
  | .keyPress _ => true
  | _ => false

/-- The outcome in which only the `grade-distribution` request is rejected. -/
def gradeDistributionDown : DashboardResponses Int :=
  { statsRes := .resolved (.obj [(js "total_students", .num 1200)])
    deptRes := .resolved (some { departments := some [js "Science"], counts := some [1200] })
    gradesRes := .resolved (some { periods := some [js "2023"], grades := some [72] })
    paymentRes := .resolved (some { statuses := some [js "Paid"], counts := some [80] })
    attendanceRes := .resolved (some { courses := some [js "Law"], avg_hours := some [5] })
    gradeDistRes := .rejected
    topStudentsRes := .resolved (some { students := some [js "Ann"], grades := some [91] }) }

/-- The events of a panel trace that are not key presses keep this relation
between the `loading` flag and the number of requests in flight. -/
def PanelState.singleFlight (s : PanelState) : Bool :=
  s.inFlight == (if s.loading then 1 else 0)

/-! ## Theorems: the reference codec -/

namespace RefJson

theorem parseChars_quote (rest : JsString) : parseChars (34 :: rest) = some ([], rest) := by
  unfold parseChars; simp

theorem parseChars_plain (c : Nat) (rest : JsString) (h34 : c ≠ 34) (h92 : c ≠ 92)
    (h : ¬ c < 32) :
    parseChars (c :: rest) = match parseChars rest with
      | some (s, out) => some (c :: s, out)
      | none => none := by
  conv_lhs => unfold parseChars
  simp [h34, h92, h]

theorem parseChars_simple (e u : Nat) (rest s out : JsString)
    (he : (if e = 34 then some 34 else if e = 92 then some 92 else if e = 47 then some 47
            else if e = 98 then some 8 else if e = 102 then some 12 else if e = 110 then some 10
            else if e = 114 then some 13 else if e = 116 then some 9 else none) = some u)
    (h117 : e ≠ 117) (ih : parseChars rest = some (s, out)) :
    parseChars (92 :: e :: rest) = some (u :: s, out) := by
  conv_lhs => unfold parseChars
  simp [h117, he, ih]

theorem parseChars_escape (s rest : JsString) :
    parseChars (s.flatMap escape ++ 34 :: rest) = some (s, rest) := by
  induction s with
  | nil => exact parseChars_quote rest
  | cons c s ih =>
    rw [List.flatMap_cons, List.append_assoc]
    by_cases h34 : c = 34
    · subst h34; exact parseChars_simple 34 34 _ _ _ rfl (by decide) ih
    by_cases h92 : c = 92
    · subst h92; exact parseChars_simple 92 92 _ _ _ rfl (by decide) ih
    by_cases hlt : c < 32
    · interval_cases c <;>
        first
          | exact parseChars_simple _ _ _ _ _ rfl (by decide) ih
          | simp [escape, parseChars, ih, hexVal, hexDigit]
    · have h8 : c ≠ 8 := by omega
      have h9 : c ≠ 9 := by omega
      have h10 : c ≠ 10 := by omega
      have h12 : c ≠ 12 := by omega
      have h13 : c ≠ 13 := by omega
      have : escape c = [c] := by simp [escape, h34, h92, h8, h9, h10, h12, h13, hlt]
      rw [this, List.singleton_append, parseChars_plain c _ h34 h92 hlt, ih]

theorem skipWs_quote (s rest : JsString) : skipWs (quote s ++ rest) = quote s ++ rest := by
  simp [skipWs, quote, isWs]

theorem quote_append (s rest : JsString) :
    quote s ++ rest = 34 :: (s.flatMap escape ++ 34 :: rest) := by
  simp [quote]

theorem parseValue_string (fuel : Nat) (s rest : JsString) :
    parseValue (fuel + 1) (quote s ++ rest) = some (.str s, rest) := by
  unfold parseValue
  rw [skipWs_quote, quote_append]
  simp [parseChars_escape]

theorem parseMembers_last (fuel : Nat) (acc : List (JsString × JsVal)) (k v rest : JsString) :
    parseMembers (fuel + 2) acc (quote k ++ 58 :: (quote v ++ 125 :: rest))
      = some (setField k (.str v) acc, rest) := by
  unfold parseMembers
  rw [skipWs_quote, quote_append]
  simp [parseChars_escape, skipWs, isWs, parseValue_string]

theorem parseMembers_more (fuel : Nat) (acc : List (JsString × JsVal)) (k v rest : JsString) :
    parseMembers (fuel + 2) acc (quote k ++ 58 :: (quote v ++ 44 :: rest))
      = parseMembers (fuel + 1) (setField k (.str v) acc) rest := by
  conv_lhs => unfold parseMembers
  rw [skipWs_quote, quote_append]
  simp [parseChars_escape, skipWs, isWs, parseValue_string]

theorem stringify_user (u r : JsString) :
    stringify (userObject (.str u) (.str r))
      = 123 :: (quote (js "username") ++ 58 :: (quote u ++ 44 ::
          (quote (js "role") ++ 58 :: (quote r ++ 125 :: [])))) := by
  simp [userObject, stringify, stringifyFields, stringifyFields.sep]

/-- The reference codec reads back every `{username, role}` object of two strings
from the text it writes for it, and that text is not empty. -/
theorem parse_stringify_user (u r : JsString) :
    stringify (userObject (.str u) (.str r)) ≠ [] ∧
    parse (stringify (userObject (.str u) (.str r))) = some (userObject (.str u) (.str r)) := by
  rw [stringify_user]
  refine ⟨by simp, ?_⟩
  obtain ⟨n, hn⟩ : ∃ n, (123 :: (quote (js "username") ++ 58 :: (quote u ++ 44 ::
      (quote (js "role") ++ 58 :: (quote r ++ 125 :: []))))).length + 1 = n + 4 := by
    refine ⟨(123 :: (quote (js "username") ++ 58 :: (quote u ++ 44 ::
      (quote (js "role") ++ 58 :: (quote r ++ 125 :: []))))).length - 3, ?_⟩
    simp [quote]
    omega
  unfold parse
  rw [hn]
  have hv : parseValue (n + 4) (123 :: (quote (js "username") ++ 58 :: (quote u ++ 44 ::
      (quote (js "role") ++ 58 :: (quote r ++ 125 :: [])))))
      = some (userObject (.str u) (.str r), []) := by
    unfold parseValue
    have hs : skipWs (123 :: (quote (js "username") ++ 58 :: (quote u ++ 44 ::
        (quote (js "role") ++ 58 :: (quote r ++ 125 :: [])))))
        = 123 :: (quote (js "username") ++ 58 :: (quote u ++ 44 ::
          (quote (js "role") ++ 58 :: (quote r ++ 125 :: [])))) := by
      simp [skipWs, isWs]
    rw [hs]
    simp only []
    rw [skipWs_quote, parseMembers_more, parseMembers_last]
    simp [quote, setField, userObject]
    decide
  rw [hv]
  rfl

end RefJson

/-! ## Theorems: `AuthContext.js` -/

theorem get_str_not_nullish {data : JsVal} {key s : JsString}
    (h : data.get key = .str s) : data.isNullish = false := by
  cases data <;> first | rfl | simp [JsVal.get] at h

theorem login_resolved_session (json : JsonCodec) (username password : JsString)
    (data : JsVal) (w : Browser) (h : data.isNullish = false) :
    (login json username password (.resolved data) w).2.session =
      { isAuthenticated := true
        user := userObject (data.get (js "username")) (data.get (js "role"))
        token := data.get (js "access_token") } := by
  simp [login, h]

theorem restore_consistent (json : JsonCodec) (stored : Storage) (w w1 : Browser)
    (hk : (AuthEvent.restore stored).keepsInvariant json = true)
    (hw : w.session.consistent = true)
    (h : restore json { w with localStorage := stored } = some w1) :
    w1.session.consistent = true := by
  unfold restore at h
  unfold AuthEvent.keepsInvariant at hk
  simp only [] at h hk
  split at h
  · rename_i storedToken storedUser ht hu
    simp only [ht, hu] at hk
    split at h
    · rename_i hg
      simp only [hg, if_true] at hk
      split at h
      · exact absurd h (by simp)
      · rename_i parsed hp
        simp only [hp] at hk
        simp only [Option.some.injEq] at h
        subst h
        simp [Session.consistent, JsVal.nonNull, JsVal.isNullish, hk] at hk ⊢
        simpa [JsVal.nonNull] using hk
    · simp only [Option.some.injEq] at h
      subst h
      exact hw
  · simp only [Option.some.injEq] at h
    subst h
    exact hw

theorem authStep_consistent (json : JsonCodec) (e : AuthEvent) (w w1 : Browser)
    (hk : e.keepsInvariant json = true) (hw : w.session.consistent = true)
    (h : authStep json w e = some w1) : w1.session.consistent = true := by
  cases e with
  | restore stored => exact restore_consistent json stored w w1 hk hw h
  | login username password outcome =>
    simp only [authStep, Option.some.injEq] at h
    subst h
    cases outcome with
    | resolved data =>
      cases hd : data.isNullish with
      | true => simpa [login, hd] using hw
      | false =>
        rw [login_resolved_session json username password data w hd]
        have : (data.get (js "access_token")).nonNull = true := by
          simpa [AuthEvent.keepsInvariant, hd] using hk
        have hu : (userObject (data.get (js "username")) (data.get (js "role"))).nonNull = true :=
          rfl
        simp [Session.consistent, this, hu]
    | rejected responseData => simpa [login] using hw
  | logout =>
    simp only [authStep, Option.some.injEq] at h
    subst h
    rfl

theorem authRun_consistent (json : JsonCodec) (events : List AuthEvent) :
    ∀ (w w1 : Browser), (∀ e ∈ events, e.keepsInvariant json = true) →
      w.session.consistent = true → authRun json w events = some w1 →
      w1.session.consistent = true := by
  induction events with
  | nil =>
    intro w w1 _ hw h
    simp only [authRun, Option.some.injEq] at h
    subst h
    exact hw
  | cons e rest ih =>
    intro w w1 hk hw h
    simp only [authRun] at h
    split at h
    · exact absurd h (by simp)
    · rename_i w2 hstep
      exact ih w2 w1 (fun e1 he1 => hk e1 (List.mem_cons_of_mem _ he1))
        (authStep_consistent json e w w2 (hk e (List.mem_cons_self _ _)) hw hstep) h

/-- C1 (as stated) fails: the mount effect over a storage whose `user` entry is the
text `null` leaves `isAuthenticated` true with a `null` user, and a resolved login
whose body has no `access_token` leaves it true with an `undefined` token. -/
theorem C1_invariant_broken :
    (∃ w, authRun refJson (Browser.fresh Storage.empty) [.restore nullUserStorage] = some w ∧
      w.session.isAuthenticated = true ∧ w.session.user.nonNull = false ∧
      w.session.consistent = false) ∧
    (∃ w, authRun refJson (Browser.fresh Storage.empty)
        [.login (js "ann") (js "pw")
          (.resolved (.obj [(js "username", .str (js "ann")), (js "role", .str (js "staff"))]))]
        = some w ∧
      w.session.isAuthenticated = true ∧ w.session.token.nonNull = false ∧
      w.session.consistent = false) :=
  ⟨⟨_, rfl, rfl, rfl, rfl⟩, ⟨_, rfl, rfl, rfl, rfl⟩⟩

/-- C1 (amended): from the initial empty session over any storage, every state
reached by runs of the mount effect, logins and logouts satisfies
`isAuthenticated == (token != null && user != null)`, provided no mount effect
whose guard passes reads a `user` entry that parses to `null` and no resolved login
body lacks a non-null `access_token`. -/
theorem C1_invariant_amended (json : JsonCodec) (stored : Storage) (events : List AuthEvent)
    (w : Browser) (hk : ∀ e ∈ events, e.keepsInvariant json = true)
    (h : authRun json (Browser.fresh stored) events = some w) :
    (w.session.isAuthenticated = true ↔
      (w.session.token.nonNull = true ∧ w.session.user.nonNull = true)) ∧
    w.session.consistent = true := by
  have hc := authRun_consistent json events (Browser.fresh stored) w hk rfl h
  refine ⟨?_, hc⟩
  have hb : w.session.isAuthenticated = (w.session.token.nonNull && w.session.user.nonNull) := by
    simpa [Session.consistent] using hc
  rw [hb, Bool.and_eq_true]

/-- The amended invariant at a concrete history over the reference codec. -/
theorem C1_invariant_amended_witness :
    (∀ e ∈ sampleHistory, e.keepsInvariant refJson = true) ∧
    ∃ w, authRun refJson (Browser.fresh Storage.empty) sampleHistory = some w ∧
      w.session.isAuthenticated = true ∧ w.session.consistent = true :=
  ⟨by decide, _, rfl, rfl,
    (C1_invariant_amended refJson Storage.empty sampleHistory _ (by decide) rfl).2⟩

/-- C2: for a login response carrying the strings `access_token`, `username` and
`role`, from any prior state, `login` answers success, `isAuthenticated` is true,
storage holds the token under `token` and the JSON text of `{username, role}`
under `user`; after a following `logout` both keys are absent and
`isAuthenticated` is false. -/
theorem C2_login_then_logout (json : JsonCodec) (username password : JsString)
    (data : JsVal) (access_token user role : JsString) (w : Browser)
    (ht : data.get (js "access_token") = .str access_token)
    (hu : data.get (js "username") = .str user)
    (hr : data.get (js "role") = .str role) :
    (login json username password (.resolved data) w).1.isSuccess = true ∧
    (login json username password (.resolved data) w).2.session.isAuthenticated = true ∧
    (login json username password (.resolved data) w).2.localStorage.getItem (js "token")
      = some access_token ∧
    (login json username password (.resolved data) w).2.localStorage.getItem (js "user")
      = some (json.stringify (userObject (.str user) (.str role))) ∧
    (logout (login json username password (.resolved data) w).2).localStorage.getItem
      (js "token") = none ∧
    (logout (login json username password (.resolved data) w).2).localStorage.getItem
      (js "user") = none ∧
    (logout (login json username password (.resolved data) w).2).session.isAuthenticated
      = false := by
  have hd := get_str_not_nullish ht
  have hne : js "token" ≠ js "user" := by decide
  refine ⟨?_, ?_, ?_, ?_, ?_, ?_, ?_⟩
  · simp [login, hd, LoginResult.isSuccess]
  · simp [login, hd]
  · simp [login, hd, ht, Storage.getItem, Storage.setItem, hne, JsVal.toStr]
  · simp [login, hd, hu, hr, Storage.getItem, Storage.setItem]
  · simp [logout, Storage.getItem, Storage.removeItem, hne]
  · simp [logout, Storage.getItem, Storage.removeItem]
  · simp [logout]

/-- C2 at a concrete response, from the empty browser, over the reference codec. -/
theorem C2_login_then_logout_witness :
    (login refJson (js "ann") (js "pw")
        (.resolved (loginResponse (js "abc") (js "ann") (js "staff")))
        (Browser.fresh Storage.empty)).2.localStorage.getItem (js "user")
      = some (js "\x7b\"username\":\"ann\",\"role\":\"staff\"\x7d") ∧
    (login refJson (js "ann") (js "pw")
        (.resolved (loginResponse (js "abc") (js "ann") (js "staff")))
        (Browser.fresh Storage.empty)).2.localStorage.getItem (js "token")
      = some (js "abc") :=
  have h := C2_login_then_logout refJson (js "ann") (js "pw")
    (loginResponse (js "abc") (js "ann") (js "staff")) (js "abc") (js "ann") (js "staff")
    (Browser.fresh Storage.empty) rfl rfl rfl
  ⟨h.2.2.2.1.trans (by decide), h.2.2.1⟩

/-- C3 (as stated) fails: a rejected login whose body carries the error field `""`
answers the fallback `Login failed`, not the backend's field. -/
theorem C3_empty_error_replaced :
    errorField (some (.obj [(js "error", .str [])])) = .str [] ∧
    (login refJson (js "ann") (js "pw") (.rejected (some (.obj [(js "error", .str [])])))
        (Browser.fresh Storage.empty)).1 = .failure (.str (js "Login failed")) ∧
    js "Login failed" ≠ [] :=
  ⟨rfl, rfl, by decide⟩

/-- C3 (amended): a rejected login (non-2xx response or network error), from any
prior state, leaves the session, the storage and the default `Authorization`
header as they were and answers `{success: false, error}`, where `error` is the
backend's error field when that field is a non-empty string (more generally,
truthy) and `Login failed` when the field is missing, empty (more generally,
falsy) or there is no response at all. -/
theorem C3_failed_login_amended (json : JsonCodec) (username password : JsString)
    (responseData : Option JsVal) (w : Browser) :
    (login json username password (.rejected responseData) w).2.session = w.session ∧
    (login json username password (.rejected responseData) w).2.localStorage = w.localStorage ∧
    (login json username password (.rejected responseData) w).2.authorization
      = w.authorization ∧
    (login json username password (.rejected responseData) w).1.isSuccess = false ∧
    (∀ e : JsString, e ≠ [] → errorField responseData = .str e →
      (login json username password (.rejected responseData) w).1 = .failure (.str e)) ∧
    ((errorField responseData).truthy = true →
      (login json username password (.rejected responseData) w).1
        = .failure (errorField responseData)) ∧
    ((errorField responseData).truthy = false →
      (login json username password (.rejected responseData) w).1
        = .failure (.str (js "Login failed"))) ∧
    (responseData = none →
      (login json username password (.rejected responseData) w).1
        = .failure (.str (js "Login failed"))) := by
  refine ⟨rfl, rfl, rfl, rfl, ?_, ?_, ?_, ?_⟩
  · intro e he h
    have : (JsVal.str e).truthy = true := by
      cases e with
      | nil => exact absurd rfl he
      | cons c cs => rfl
    simp [login, h, JsVal.orElse, this]
  · intro h
    simp [login, JsVal.orElse, h]
  · intro h
    simp [login, JsVal.orElse, h]
  · intro h
    subst h
    rfl

/-- C4 (as stated) fails: after a successful login whose `access_token` is the
empty string, the mount effect on a fresh page over the storage that login left
does not authenticate. -/
theorem C4_empty_token_not_restored :
    (login refJson (js "ann") (js "pw") (.resolved (loginResponse [] (js "ann") (js "staff")))
        (Browser.fresh Storage.empty)).1.isSuccess = true ∧
    (login refJson (js "ann") (js "pw") (.resolved (loginResponse [] (js "ann") (js "staff")))
        (Browser.fresh Storage.empty)).2.session.isAuthenticated = true ∧
    (restore refJson (Browser.fresh
        (login refJson (js "ann") (js "pw")
          (.resolved (loginResponse [] (js "ann") (js "staff")))
          (Browser.fresh Storage.empty)).2.localStorage)).map
      (fun w => w.session.isAuthenticated) = some false :=
  ⟨rfl, rfl, rfl⟩

/-- C4 (amended): for a login response carrying the strings `access_token`,
`username` and `role` with a non-empty `access_token`, and a codec whose `parse`
gives back the `{username, role}` object from its non-empty `stringify` text, the
mount effect on a fresh page over the storage a successful login left yields an
authenticated session with the token and user the login produced, installs
`Bearer <token>` and sends no request. -/
theorem C4_restore_after_login_amended (json : JsonCodec) (username password : JsString)
    (data : JsVal) (access_token user role : JsString) (w : Browser)
    (ht : data.get (js "access_token") = .str access_token)
    (hu : data.get (js "username") = .str user)
    (hr : data.get (js "role") = .str role)
    (hne : access_token ≠ [])
    (htext : json.stringify (userObject (.str user) (.str role)) ≠ [])
    (hparse : json.parse (json.stringify (userObject (.str user) (.str role)))
      = some (userObject (.str user) (.str role))) :
    ∃ w1, restore json (Browser.fresh
        (login json username password (.resolved data) w).2.localStorage) = some w1 ∧
      w1.session.isAuthenticated = true ∧
      w1.session.token = .str access_token ∧
      w1.session.user = userObject (.str user) (.str role) ∧
      w1.session.token = (login json username password (.resolved data) w).2.session.token ∧
      w1.session.user = (login json username password (.resolved data) w).2.session.user ∧
      w1.authorization = some (js "Bearer " ++ access_token) ∧
      w1.requests = [] := by
  have hd := get_str_not_nullish ht
  have hkeys : js "token" ≠ js "user" := by decide
  have hst : (login json username password (.resolved data) w).2.localStorage.getItem
      (js "token") = some access_token := by
    simp [login, hd, ht, Storage.getItem, Storage.setItem, hkeys, JsVal.toStr]
  have hsu : (login json username password (.resolved data) w).2.localStorage.getItem
      (js "user") = some (json.stringify (userObject (.str user) (.str role))) := by
    simp [login, hd, hu, hr, Storage.getItem, Storage.setItem]
  have hsess := login_resolved_session json username password data w hd
  refine ⟨{ session := { isAuthenticated := true, user := userObject (.str user) (.str role),
                          token := .str access_token },
            localStorage := (login json username password (.resolved data) w).2.localStorage,
            authorization := some (js "Bearer " ++ access_token), requests := [] },
    ?_, rfl, rfl, rfl, ?_, ?_, rfl, rfl⟩
  · have e1 : access_token.isEmpty = false := by
      cases access_token with
      | nil => exact absurd rfl hne
      | cons c cs => rfl
    have e2 : (json.stringify (userObject (.str user) (.str role))).isEmpty = false := by
      cases h : json.stringify (userObject (.str user) (.str role)) with
      | nil => exact absurd h htext
      | cons c cs => rfl
    simp only [restore, Browser.fresh, hst, hsu, e1, e2, hparse]
    rfl
  · rw [hsess, ht]
  · rw [hsess, hu, hr]

/-- C4 (amended) at a concrete response over the reference codec. -/
theorem C4_restore_after_login_amended_witness :
    ∃ w1, restore refJson (Browser.fresh
        (login refJson (js "ann") (js "pw")
          (.resolved (loginResponse (js "abc") (js "ann") (js "staff")))
          (Browser.fresh Storage.empty)).2.localStorage) = some w1 ∧
      w1.session.isAuthenticated = true ∧
      w1.authorization = some (js "Bearer abc") ∧
      w1.requests = [] :=
  have ⟨w1, h, ha, _, _, _, _, hb, hr⟩ :=
    C4_restore_after_login_amended refJson (js "ann") (js "pw")
      (loginResponse (js "abc") (js "ann") (js "staff")) (js "abc") (js "ann") (js "staff")
      (Browser.fresh Storage.empty) rfl rfl rfl (by decide) (by decide) rfl
  ⟨w1, h, ha, hb.trans (by decide), hr⟩

/-! ## Theorems: `Charts.js` -/

theorem arrayMap_ok {α β : Type} (xs : List α) :
    ∀ (f : α → Nat → Except JsError β) (g : α → Nat → β), (∀ a i, f a i = .ok (g a i)) →
      ∃ ys, arrayMap f xs = .ok ys ∧ ys.length = xs.length ∧
        ∀ i, ys[i]? = xs[i]?.map (fun a => g a i) := by
  induction xs with
  | nil =>
    intro f g _
    exact ⟨[], rfl, rfl, fun i => by simp⟩
  | cons x xs ih =>
    intro f g hf
    obtain ⟨ys, hys, hlen, hget⟩ :=
      ih (fun a idx => f a (idx + 1)) (fun a idx => g a (idx + 1)) (fun a i => hf a (i + 1))
    refine ⟨g x 0 :: ys, ?_, by simp [hlen], ?_⟩
    · simp only [hf] at hys
      simp only [arrayMap, hf, hys]
    · intro i
      cases i with
      | zero => simp
      | succ j => simpa using hget j

theorem ellipsize_long (n : Nat) (s : JsString) (h : n < s.length) :
    ellipsize n s = s.take n ++ js "..." ∧ (ellipsize n s).length = n + 3 := by
  have h3 : (js "...").length = 3 := by decide
  have hmin : min n s.length = n := Nat.min_eq_left (Nat.le_of_lt h)
  constructor
  · simp [ellipsize, h]
  · simp [ellipsize, h, List.length_append, List.length_take, hmin, h3]

theorem ellipsize_short (n : Nat) (s : JsString) (h : s.length ≤ n) : ellipsize n s = s := by
  simp [ellipsize, Nat.not_lt.mpr h]

/-- The part of C6 that holds: an absent dataset, an absent labels array, or an
empty labels array gives the empty list in each of the six transforms. -/
theorem charts_absent_dataset_or_labels {ν : Type} (counts grades hours : Option (List ν)) :
    deptData (none : Option (DepartmentsPayload ν)) = .ok [] ∧
    deptData (some { departments := none, counts := counts }) = .ok [] ∧
    deptData (some { departments := some [], counts := counts }) = .ok [] ∧
    gradesData (none : Option (GradesOverTimePayload ν)) = .ok [] ∧
    gradesData (some { periods := none, grades := grades }) = .ok [] ∧
    gradesData (some { periods := some [], grades := grades }) = .ok [] ∧
    paymentData (none : Option (PaymentStatusPayload ν)) = .ok [] ∧
    paymentData (some { statuses := none, counts := counts }) = .ok [] ∧
    paymentData (some { statuses := some [], counts := counts }) = .ok [] ∧
    attendanceData (none : Option (AttendancePayload ν)) = .ok [] ∧
    attendanceData (some { courses := none, avg_hours := hours }) = .ok [] ∧
    attendanceData (some { courses := some [], avg_hours := hours }) = .ok [] ∧
    gradeDistData (none : Option (GradeDistributionPayload ν)) = .ok [] ∧
    gradeDistData (some { grades := none, counts := counts }) = .ok [] ∧
    gradeDistData (some { grades := some [], counts := counts }) = .ok [] ∧
    topStudentsData (none : Option (TopStudentsPayload ν)) = .ok [] ∧
    topStudentsData (some { students := none, grades := grades }) = .ok [] ∧
    topStudentsData (some { students := some [], grades := grades }) = .ok [] :=
  ⟨rfl, rfl, rfl, rfl, rfl, rfl, rfl, rfl, rfl, rfl, rfl, rfl, rfl, rfl, rfl, rfl, rfl, rfl⟩

/-- The part of C6 that fails, in general: with a non-empty labels array and an
absent values array each of the six transforms throws. -/
theorem charts_absent_values_throw {ν : Type} (label : JsString) (labels : List JsString) :
    deptData (some { departments := some (label :: labels), counts := (none : Option (List ν)) })
      = .error .typeError ∧
    gradesData (some { periods := some (label :: labels), grades := (none : Option (List ν)) })
      = .error .typeError ∧
    paymentData (some { statuses := some (label :: labels), counts := (none : Option (List ν)) })
      = .error .typeError ∧
    attendanceData (some { courses := some (label :: labels),
                           avg_hours := (none : Option (List ν)) })
      = .error .typeError ∧
    gradeDistData (some { grades := some (label :: labels), counts := (none : Option (List ν)) })
      = .error .typeError ∧
    topStudentsData (some { students := some (label :: labels),
                            grades := (none : Option (List ν)) })
      = .error .typeError := by
  refine ⟨?_, ?_, ?_, ?_, ?_, ?_⟩
  · simp [deptData, arrayMap, indexRead]
  · simp [gradesData, arrayMap, indexRead]
  · simp [paymentData, arrayMap, indexRead]
  · simp [attendanceData, arrayMap, indexRead]
  · simp [gradeDistData, arrayMap, indexRead]
  · simp [topStudentsData, arrayMap, indexRead]

/-- C6 (the code at the failing input): with `chartData.departments` equal to
`{departments: ["Science"]}` and no `counts`, `deptData` throws a `TypeError`,
and so does the whole `Charts` render, although the other five datasets are
absent. -/
theorem C6_absent_counts_throws :
    deptData (some { departments := some [js "Science"], counts := (none : Option (List Int)) })
      = .error .typeError ∧
    Charts { (ChartData.empty : ChartData Int) with
      departments := some { departments := some [js "Science"], counts := none } }
      = .error .typeError :=
  ⟨rfl, rfl⟩

/-- C7: for an attendance payload whose `courses` and `avg_hours` have the same
length `n`, `attendanceData` has exactly `min n 8` entries, never more than 8;
entry `i` has `hours = avg_hours[i]` and `name = courses[i]` when that has at most
20 code units, otherwise its first 20 code units followed by `...`, 23 in all. -/
theorem C7_attendance_top8 {ν : Type} (courses : List JsString) (avg_hours : List ν)
    (h : courses.length = avg_hours.length) :
    ∃ entries,
      attendanceData (some { courses := some courses, avg_hours := some avg_hours })
        = .ok entries ∧
      entries.length = min courses.length 8 ∧
      entries.length ≤ 8 ∧
      ∀ i, i < min courses.length 8 →
        ∃ c v, courses[i]? = some c ∧ avg_hours[i]? = some v ∧
          entries[i]? = some { name := if c.length ≤ 20 then c else c.take 20 ++ js "...",
                               hours := some v } ∧
          (20 < c.length → (c.take 20 ++ js "...").length = 23) := by
  obtain ⟨ys, hys, hlen, hget⟩ := arrayMap_ok (courses.take 8)
    (fun course idx =>
      match indexRead (some avg_hours) idx with
      | .error e => .error e
      | .ok v => .ok ({ name := ellipsize 20 course, hours := v } : AttendanceEntry ν))
    (fun course idx => { name := ellipsize 20 course, hours := avg_hours[idx]? })
    (fun _ _ => rfl)
  have hl : ys.length = min courses.length 8 := by
    rw [hlen, List.length_take, Nat.min_comm]
  refine ⟨ys, hys, hl, by rw [hl]; exact Nat.min_le_right _ _, ?_⟩
  intro i hi
  have hi8 : i < 8 := Nat.lt_of_lt_of_le hi (Nat.min_le_right _ _)
  have hic : i < courses.length := Nat.lt_of_lt_of_le hi (Nat.min_le_left _ _)
  have hia : i < avg_hours.length := h ▸ hic
  refine ⟨courses[i], avg_hours[i], List.getElem?_eq_getElem hic, List.getElem?_eq_getElem hia,
    ?_, ?_⟩
  · rw [hget i, List.getElem?_take_of_lt hi8, List.getElem?_eq_getElem hic,
      List.getElem?_eq_getElem hia]
    simp only [Option.map_some']
    by_cases hc : courses[i].length ≤ 20
    · simp [ellipsize_short 20 _ hc, hc]
    · simp [(ellipsize_long 20 _ (Nat.lt_of_not_le hc)).1, hc]
  · intro hc
    have := (ellipsize_long 20 _ hc).2
    rwa [(ellipsize_long 20 _ hc).1] at this

/-- C7 at a payload of nine courses, the first of them 26 code units long. -/
theorem C7_attendance_top8_witness :
    ∃ entries,
      attendanceData (some {
          courses := some [js "Introduction to Statistics", js "Law", js "Art", js "Music",
            js "Logic", js "Ethics", js "Physics", js "Biology", js "History"],
          avg_hours := some [(9 : Int), 8, 7, 6, 5, 4, 3, 2, 1] })
        = .ok entries ∧
      entries.length = 8 ∧
      entries[0]? = some { name := js "Introduction to Stat...", hours := some 9 } :=
  have ⟨entries, h, hl, _, hi⟩ := C7_attendance_top8
    [js "Introduction to Statistics", js "Law", js "Art", js "Music",
      js "Logic", js "Ethics", js "Physics", js "Biology", js "History"]
    [(9 : Int), 8, 7, 6, 5, 4, 3, 2, 1] rfl
  ⟨entries, h, hl, by
    obtain ⟨c, v, hc, hv, he, _⟩ := hi 0 (by decide)
    cases hc
    cases hv
    exact he.trans rfl⟩

theorem arrayMap_indexRead {ν β : Type} (mk : JsString → Option ν → β) (values : List ν)
    (xs : List JsString) :
    ∃ ys : List β, arrayMap (fun l idx =>
        match indexRead (some values) idx with
        | .error e => .error e
        | .ok v => .ok (mk l v)) xs = .ok ys ∧
      ys.length = xs.length ∧ ∀ i : Nat, ys[i]? = xs[i]?.map (fun l => mk l values[i]?) :=
  arrayMap_ok xs _ (fun l idx => mk l values[idx]?) (fun _ _ => rfl)

/-- C8 (as stated) fails: with two labels and one value `deptData` has two
entries, more than `min 2 1`. -/
theorem C8_more_entries_than_values :
    ∃ entries,
      deptData (some { departments := some [js "Arts", js "Law"], counts := some [(7 : Int)] })
        = .ok entries ∧
      entries.length = 2 ∧ ¬ entries.length ≤ min 2 1 :=
  ⟨_, rfl, rfl, by decide⟩

/-- C8 (amended): for label and value arrays of any lengths, none of the six
transforms throws; each yields one entry per label (per label among the first 8
for attendance), whatever the length of the values array, and entry `i` carries
`values[i]`, which is `undefined` from position `values.length` on. -/
theorem C8_entries_follow_labels {ν : Type} (labels : List JsString) (values : List ν) :
    (∃ es, deptData (some { departments := some labels, counts := some values }) = .ok es ∧
      es.length = labels.length ∧
      ∀ i : Nat, es[i]? = labels[i]?.map (fun l => ({ name := l, students := values[i]? } : DeptEntry ν))) ∧
    (∃ es, gradesData (some { periods := some labels, grades := some values }) = .ok es ∧
      es.length = labels.length ∧
      ∀ i : Nat, es[i]? = labels[i]?.map (fun l => ({ period := l, grade := values[i]? } : GradeEntry ν))) ∧
    (∃ es, paymentData (some { statuses := some labels, counts := some values }) = .ok es ∧
      es.length = labels.length ∧
      ∀ i : Nat, es[i]? = labels[i]?.map (fun l => ({ name := l, value := values[i]? } : PieEntry ν))) ∧
    (∃ es, attendanceData (some { courses := some labels, avg_hours := some values }) = .ok es ∧
      es.length = min labels.length 8 ∧
      ∀ i : Nat, es[i]? = (labels.take 8)[i]?.map
        (fun l => ({ name := ellipsize 20 l, hours := values[i]? } : AttendanceEntry ν))) ∧
    (∃ es, gradeDistData (some { grades := some labels, counts := some values }) = .ok es ∧
      es.length = labels.length ∧
      ∀ i : Nat, es[i]? = labels[i]?.map (fun l => ({ name := l, value := values[i]? } : PieEntry ν))) ∧
    (∃ es, topStudentsData (some { students := some labels, grades := some values }) = .ok es ∧
      es.length = labels.length ∧
      ∀ i : Nat, es[i]? = labels[i]?.map (fun l => ({ name := ellipsize 15 l, grade := values[i]? } : StudentEntry ν))) := by
  refine ⟨?_, ?_, ?_, ?_, ?_, ?_⟩
  · exact arrayMap_indexRead (fun l v => ({ name := l, students := v } : DeptEntry ν)) values labels
  · exact arrayMap_indexRead (fun l v => ({ period := l, grade := v } : GradeEntry ν)) values labels
  · exact arrayMap_indexRead (fun l v => ({ name := l, value := v } : PieEntry ν)) values labels
  · obtain ⟨ys, hys, hlen, hget⟩ := arrayMap_indexRead
      (fun l v => ({ name := ellipsize 20 l, hours := v } : AttendanceEntry ν)) values
      (labels.take 8)
    exact ⟨ys, hys, by rw [hlen, List.length_take, Nat.min_comm], hget⟩
  · exact arrayMap_indexRead (fun l v => ({ name := l, value := v } : PieEntry ν)) values labels
  · exact arrayMap_indexRead
      (fun l v => ({ name := ellipsize 15 l, grade := v } : StudentEntry ν)) values labels

/-! ## Theorems: `Dashboard.js` -/

/-- C5 (as stated) fails: when only the `grade-distribution` request is rejected,
`fetchDashboardData` leaves `loading` false and the page renders its shell. -/
theorem C5_failure_leaves_loading_state :
    gradeDistributionDown.anyRejected = true ∧
    (fetchDashboardData gradeDistributionDown DashboardState.initial).loading = false ∧
    Dashboard.render (fetchDashboardData gradeDistributionDown DashboardState.initial)
      = DashboardView.blankPage :=
  ⟨rfl, rfl, rfl⟩

/-- C5 (amended): whenever at least one of the seven requests is rejected,
`fetchDashboardData` sets `loading` to false and leaves `stats` and `chartData`
as they were; run on the initial state, `stats` is still `null`, `chartData` is
still empty, and the page renders its shell with no stat card and six empty
charts. -/
theorem C5_failure_renders_blank_page {ν : Type} (r : DashboardResponses ν)
    (s : DashboardState ν) (h : r.anyRejected = true) :
    (fetchDashboardData r s).loading = false ∧
    (fetchDashboardData r s).stats = s.stats ∧
    (fetchDashboardData r s).chartData = s.chartData ∧
    (fetchDashboardData r DashboardState.initial).stats = .null ∧
    (fetchDashboardData r DashboardState.initial).chartData = ChartData.empty ∧
    Dashboard.render (fetchDashboardData r DashboardState.initial) = DashboardView.blankPage := by
  have key : ∀ s0 : DashboardState ν, fetchDashboardData r s0 = { s0 with loading := false } := by
    intro s0
    obtain ⟨a, b, c, d, e, f, g⟩ := r
    cases a <;> cases b <;> cases c <;> cases d <;> cases e <;> cases f <;> cases g <;>
      first
        | rfl
        | exact absurd h (by simp [DashboardResponses.anyRejected, Fetched.isResolved])
  rw [key s, key DashboardState.initial]
  exact ⟨rfl, rfl, rfl, rfl, rfl, rfl⟩

/-- C5 (amended) at the outcome in which only `grade-distribution` is rejected. -/
theorem C5_failure_renders_blank_page_witness :
    gradeDistributionDown.anyRejected = true ∧
    (fetchDashboardData gradeDistributionDown DashboardState.initial).loading = false ∧
    (fetchDashboardData gradeDistributionDown DashboardState.initial).stats.isNullish = true :=
  have h := C5_failure_renders_blank_page gradeDistributionDown DashboardState.initial rfl
  ⟨rfl, h.1, by rw [h.2.1]; rfl⟩

/-! ## Theorems: `PredictionPanel.js` -/

theorem trim_of_all_whiteSpace (s : JsString) (h : s.all isWhiteSpace = true) : trim s = [] := by
  have : s.dropWhile isWhiteSpace = [] := by
    rw [List.dropWhile_eq_nil_iff]
    exact fun x hx => List.all_eq_true.mp h x hx
  simp [trim, this]

/-- C9: for a `studentId` that is empty or made of white space only,
`handlePredict` sends no request, sets the error to `Please enter a student ID`,
and leaves `loading` (false stays false), the displayed prediction and the input as
they were; the same holds when it is reached through the button or the Enter key. -/
theorem C9_blank_id_refused (s : PanelState) (h : s.studentId.all isWhiteSpace = true) :
    (handlePredict s).requests = s.requests ∧
    (handlePredict s).inFlight = s.inFlight ∧
    (handlePredict s).error = .str (js "Please enter a student ID") ∧
    (handlePredict s).loading = s.loading ∧
    (s.loading = false → (handlePredict s).loading = false) ∧
    (handlePredict s).prediction = s.prediction ∧
    (handlePredict s).studentId = s.studentId ∧
    (panelStep s (.keyPress (js "Enter"))).requests = s.requests ∧
    (panelStep s .click).requests = s.requests := by
  have ht : (trim s.studentId).isEmpty = true := by rw [trim_of_all_whiteSpace _ h]; rfl
  have hp : handlePredict s = { s with error := .str (js "Please enter a student ID") } := by
    simp [handlePredict, ht]
  refine ⟨by rw [hp], by rw [hp], by rw [hp], by rw [hp], fun hl => by rw [hp]; exact hl,
    by rw [hp], by rw [hp], ?_, ?_⟩
  · simp [panelStep, hp]
  · simp only [panelStep]
    split
    · rfl
    · rw [hp]

/-- C9 at the input of three spaces, typed into the initial panel. -/
theorem C9_blank_id_refused_witness :
    (panelStep PanelState.initial (.change (js "   "))).studentId.all isWhiteSpace = true ∧
    (handlePredict (panelStep PanelState.initial (.change (js "   ")))).requests = [] ∧
    (handlePredict (panelStep PanelState.initial (.change (js "   ")))).loading = false :=
  have h := C9_blank_id_refused (panelStep PanelState.initial (.change (js "   "))) (by decide)
  ⟨by decide, h.1, h.2.2.2.2.1 rfl⟩

theorem panelStep_singleFlight (s : PanelState) (e : PanelEvent) (he : e.isKeyPress = false)
    (hs : s.singleFlight = true) : (panelStep s e).singleFlight = true := by
  cases e with
  | change value => exact hs
  | click =>
    simp only [panelStep]
    cases hl : s.loading with
    | true => simpa using hs
    | false =>
      have h0 : s.inFlight = 0 := by simpa [PanelState.singleFlight, hl] using hs
      simp only [Bool.false_eq_true, if_false, handlePredict]
      split
      · simpa [PanelState.singleFlight, hl] using h0
      · simp [PanelState.singleFlight, h0]
  | keyPress key => exact absurd he (by simp [PanelEvent.isKeyPress])
  | settle outcome =>
    simp only [panelStep]
    split
    · exact hs
    · rename_i hpos
      have h1 : s.inFlight = 1 := by
        cases hl : s.loading with
        | true => simpa [PanelState.singleFlight, hl] using hs
        | false => exact absurd (by simpa [PanelState.singleFlight, hl] using hs) hpos
      cases outcome <;> simp [predictSettled, PanelState.singleFlight, h1]

/-- The button alone does keep one request in flight: along any trace without key
presses, the number of requests in flight is 1 while `loading` and 0 otherwise. -/
theorem panel_button_only_single_flight (events : List PanelEvent)
    (h : ∀ e ∈ events, e.isKeyPress = false) :
    (panelRun PanelState.initial events).singleFlight = true ∧
    (panelRun PanelState.initial events).inFlight ≤ 1 := by
  have gen : ∀ (evs : List PanelEvent) (s : PanelState), (∀ e ∈ evs, e.isKeyPress = false) →
      s.singleFlight = true → (panelRun s evs).singleFlight = true := by
    intro evs
    induction evs with
    | nil => intro s _ hs; exact hs
    | cons e rest ih =>
      intro s hk hs
      exact ih (panelStep s e) (fun e1 he1 => hk e1 (List.mem_cons_of_mem _ he1))
        (panelStep_singleFlight s e (hk e (List.mem_cons_self _ _)) hs)
  have hsf := gen events PanelState.initial h rfl
  refine ⟨hsf, ?_⟩
  have : (panelRun PanelState.initial events).inFlight
      = if (panelRun PanelState.initial events).loading then 1 else 0 := by
    simpa [PanelState.singleFlight] using hsf
  rw [this]
  split <;> simp

/-- C10 (the code at the failing input): after typing `STU000001`, pressing Enter
and pressing Enter again before the first request settles, two
`predict-performance` requests are in flight; the second one was started while
`loading` was true. -/
theorem C10_enter_twice_two_in_flight :
    (panelRun PanelState.initial [.change (js "STU000001"), .keyPress (js "Enter")]).loading
      = true ∧
    (panelRun PanelState.initial [.change (js "STU000001"), .keyPress (js "Enter")]).inFlight
      = 1 ∧
    (panelRun PanelState.initial
      [.change (js "STU000001"), .keyPress (js "Enter"), .keyPress (js "Enter")]).inFlight = 2 ∧
    (panelRun PanelState.initial
      [.change (js "STU000001"), .keyPress (js "Enter"), .keyPress (js "Enter")]).requests.length
      = 2 :=
  ⟨by decide, by decide, by decide, by decide⟩

end NextGen
